import Mathlib

/-!
Shallow embedding of the research-to-draft pipeline of `app.py`
(AI-Affiliate-Blog-Writer): search retrieval, per-result summarization,
product extraction, content-gap analysis, and synthesis-prompt composition.

External effects (the Gemini model call, the Exa/Metaphor search call, the
Streamlit product-selection widgets) are passed in as explicit function
parameters; a raised Python exception is an `Except.error`.  Every stage is
translated from the first set of definitions in `app.py` (the ones in scope
when `main()` runs); each stage additionally returns the list of prompts it
sent to the generation client, so that "the client was not invoked" is the
statement that this log is empty.
-/

set_option autoImplicit false

namespace AffiliateBlog

/-- A Python exception value, abstracted to its message.  `retryError` stands
for tenacity's `RetryError`, raised when the retry budget is exhausted. -/
inductive PyErr where
  | exn (msg : String)
  | retryError
deriving BEq, DecidableEq

/-- JSON values as produced by Python's `json.loads`.  A number keeps its
source text: the program never inspects numeric values, so this avoids
floating point while staying faithful to which texts parse. -/
inductive Json where
  | null
  | bool (b : Bool)
  | num (raw : String)
  | str (s : String)
  | arr (elems : List Json)
  | obj (fields : List (String × Json))
deriving BEq

/-- The `Json.arr` discriminator, mirroring Python's `isinstance(x, list)`. -/
def Json.isArr : Json → Bool
  | .arr _ => true
  | _ => false

/-- The two brace characters, kept out of string literals. -/
def lbrace : Char := Char.ofNat 123

def rbrace : Char := Char.ofNat 125

/-- JSON inter-token whitespace accepted by `json.loads`. -/
def jsonWs (c : Char) : Bool := c = ' ' || c = '\t' || c = '\n' || c = '\r'

def skipWs : List Char → List Char
  | [] => []
  | c :: cs => if jsonWs c then skipWs cs else c :: cs

def hexVal (c : Char) : Option Nat :=
  if '0' ≤ c ∧ c ≤ '9' then some (c.toNat - '0'.toNat)
  else if 'a' ≤ c ∧ c ≤ 'f' then some (c.toNat - 'a'.toNat + 10)
  else if 'A' ≤ c ∧ c ≤ 'F' then some (c.toNat - 'A'.toNat + 10)
  else none

/-- Decode one escape sequence after a backslash in a JSON string literal. -/
def parseEscape : List Char → Option (Char × List Char)
  | 'u' :: h1 :: h2 :: h3 :: h4 :: rest =>
    match hexVal h1, hexVal h2, hexVal h3, hexVal h4 with
    | some a, some b, some c, some d =>
      some (Char.ofNat (((a * 16 + b) * 16 + c) * 16 + d), rest)
    | _, _, _, _ => none
  | c :: rest =>
    if c = '"' ∨ c = '\\' ∨ c = '/' then some (c, rest)
    else if c = 'b' then some (Char.ofNat 8, rest)
    else if c = 'f' then some (Char.ofNat 12, rest)
    else if c = 'n' then some ('\n', rest)
    else if c = 'r' then some ('\r', rest)
    else if c = 't' then some ('\t', rest)
    else none
  | [] => none

/-- Parse the body of a JSON string literal (after the opening quote),
returning the decoded characters and the input after the closing quote. -/
def parseStringBody : Nat → List Char → Option (List Char × List Char)
  | 0, _ => none
  | _, [] => none
  | fuel + 1, c :: rest =>
    if c = '"' then some ([], rest)
    else if c = '\\' then
      match parseEscape rest with
      | none => none
      | some (d, rest') =>
        match parseStringBody fuel rest' with
        | none => none
        | some (s, r) => some (d :: s, r)
    else
      match parseStringBody fuel rest with
      | none => none
      | some (s, r) => some (c :: s, r)

def isDigitCh (c : Char) : Bool := '0' ≤ c && c ≤ '9'

def takeDigits : List Char → List Char × List Char
  | [] => ([], [])
  | c :: cs =>
    if isDigitCh c then
      let (d, r) := takeDigits cs
      (c :: d, r)
    else ([], c :: cs)

/-- The integer part of a JSON number: `0` or a nonzero digit then digits. -/
def parseIntPart : List Char → Option (List Char × List Char)
  | [] => none
  | c :: cs =>
    if c = '0' then some ([c], cs)
    else if isDigitCh c then
      let (d, r) := takeDigits cs
      some (c :: d, r)
    else none

def parseFracPart : List Char → Option (List Char × List Char)
  | '.' :: cs =>
    match takeDigits cs with
    | ([], _) => none
    | (d, r) => some ('.' :: d, r)
  | cs => some ([], cs)

def parseExpPart : List Char → Option (List Char × List Char)
  | [] => some ([], [])
  | c :: cs =>
    if c = 'e' ∨ c = 'E' then
      let sgn : List Char × List Char :=
        match cs with
        | [] => ([], [])
        | s :: cs' => if s = '+' ∨ s = '-' then ([s], cs') else ([], s :: cs')
      match takeDigits sgn.2 with
      | ([], _) => none
      | (d, r) => some (c :: (sgn.1 ++ d), r)
    else some ([], c :: cs)

def parseNumber (cs : List Char) : Option (List Char × List Char) :=
  let neg : List Char × List Char :=
    match cs with
    | '-' :: cs' => (['-'], cs')
    | _ => ([], cs)
  match parseIntPart neg.2 with
  | none => none
  | some (ip, cs2) =>
    match parseFracPart cs2 with
    | none => none
    | some (fp, cs3) =>
      match parseExpPart cs3 with
      | none => none
      | some (ep, cs4) => some (neg.1 ++ ip ++ fp ++ ep, cs4)

mutual

/-- Recursive-descent JSON value parser (fuelled; fuel is ample in
`json_loads`).  Returns the value and the unconsumed input. -/
def parseValue : Nat → List Char → Option (Json × List Char)
  | 0, _ => none
  | fuel + 1, cs =>
    match skipWs cs with
    | [] => none
    | c :: rest =>
      if c = '"' then
        match parseStringBody (rest.length + 1) rest with
        | some (s, r) => some (.str (String.mk s), r)
        | none => none
      else if c = lbrace then
        match skipWs rest with
        | [] => none
        | d :: rest' =>
          if d = rbrace then some (.obj [], rest')
          else
            match parseFields fuel (d :: rest') with
            | some (kvs, r) => some (.obj kvs, r)
            | none => none
      else if c = '[' then
        match skipWs rest with
        | [] => none
        | d :: rest' =>
          if d = ']' then some (.arr [], rest')
          else
            match parseElems fuel (d :: rest') with
            | some (xs, r) => some (.arr xs, r)
            | none => none
      else if c = 't' then
        match rest with
        | 'r' :: 'u' :: 'e' :: r => some (.bool true, r)
        | _ => none
      else if c = 'f' then
        match rest with
        | 'a' :: 'l' :: 's' :: 'e' :: r => some (.bool false, r)
        | _ => none
      else if c = 'n' then
        match rest with
        | 'u' :: 'l' :: 'l' :: r => some (.null, r)
        | _ => none
      else
        match parseNumber (c :: rest) with
        | some (raw, r) => some (.num (String.mk raw), r)
        | none => none

/-- One-or-more comma-separated array elements up to the closing bracket. -/
def parseElems : Nat → List Char → Option (List Json × List Char)
  | 0, _ => none
  | fuel + 1, cs =>
    match parseValue fuel cs with
    | none => none
    | some (v, r) =>
      match skipWs r with
      | [] => none
      | d :: r' =>
        if d = ',' then
          match parseElems fuel r' with
          | some (vs, r2) => some (v :: vs, r2)
          | none => none
        else if d = ']' then some ([v], r')
        else none

/-- One-or-more comma-separated `"key": value` fields up to the closing
brace. -/
def parseFields : Nat → List Char → Option (List (String × Json) × List Char)
  | 0, _ => none
  | fuel + 1, cs =>
    match skipWs cs with
    | [] => none
    | c :: rest =>
      if c = '"' then
        match parseStringBody (rest.length + 1) rest with
        | none => none
        | some (k, r) =>
          match skipWs r with
          | ':' :: r' =>
            match parseValue fuel r' with
            | none => none
            | some (v, r2) =>
              match skipWs r2 with
              | [] => none
              | d :: r3 =>
                if d = ',' then
                  match parseFields fuel r3 with
                  | some (kvs, r4) => some ((String.mk k, v) :: kvs, r4)
                  | none => none
                else if d = rbrace then some ([(String.mk k, v)], r3)
                else none
          | _ => none
      else none

end

/-- Model of Python's `json.loads`: parse the whole string as one JSON
document (surrounding whitespace allowed); `none` where `json.loads` raises
`JSONDecodeError`. -/
def json_loads (s : String) : Option Json :=
  match parseValue (2 * s.length + 2) s.toList with
  | none => none
  | some (v, rest) => if (skipWs rest).isEmpty then some v else none

/-- Model of `re.search(r'(\[.*?\])', raw, re.DOTALL)`, returning the matched
group: with a non-greedy body the leftmost match runs from the first `[` of
the text to the first `]` after it (if the first `[` has no later `]`, no
later `[` has one either, so there is no match). -/
def reSearchArray (s : String) : Option String :=
  let cs := s.toList
  match cs.findIdx? (· = '[') with
  | none => none
  | some i =>
    match (cs.drop (i + 1)).findIdx? (· = ']') with
    | none => none
    | some j => some (String.mk ((cs.drop i).take (j + 2)))

/-- Python `str()` of an optional string as interpolated by an f-string:
`None` renders as the text `"None"`. -/
def pyStr : Option String → String
  | none => "None"
  | some s => s

/-- A search result record from the Exa/Metaphor client.  The source probes
every field with `getattr(result, field, None)`, so each field is optional. -/
structure SearchResult where
  title : Option String := none
  url : Option String := none
  content : Option String := none
  extract : Option String := none
  description : Option String := none
  snippet : Option String := none
deriving BEq

structure Summary where
  title : Option String
  url : Option String
  summary : String
deriving BEq

/-- A product as selected in the Streamlit UI: `p['name']` and
`p.get('url', '')`, so a missing url has already collapsed to `""`. -/
structure Product where
  name : String
  url : String
deriving BEq

/-- Python truthiness of an optional string: `None` and `""` are falsy. -/
def truthy : Option String → Bool
  | none => false
  | some s => !(s == "")

/-- Python `a or b` on optional strings. -/
def pyOr (a b : Option String) : Option String := if truthy a then a else b

/-- The ASCII whitespace stripped by Python's `str.strip()` (Python also
strips some rarer Unicode space characters, which never occur here). -/
def py_ws (c : Char) : Bool :=
  c = ' ' || c = '\t' || c = '\n' || c = '\r' || c = Char.ofNat 11 || c = Char.ofNat 12

/-- Python `s.strip()`: drop leading and trailing whitespace. -/
def py_strip (s : String) : String :=
  String.mk (((s.toList.dropWhile py_ws).reverse.dropWhile py_ws).reverse)

def listPrefix : List Char → List Char → Bool
  | [], _ => true
  | _ :: _, [] => false
  | a :: as, b :: bs => a == b && listPrefix as bs

def containsSeq (needle : List Char) : List Char → Bool
  | [] => listPrefix needle []
  | c :: cs => listPrefix needle (c :: cs) || containsSeq needle cs

/-- Python `needle in hay` on strings: the substring test. -/
def py_contains (needle hay : String) : Bool :=
  containsSeq needle.toList hay.toList

/-- The content-field resolution chain of `summarize_serp_results`:
`content or extract or description or snippet or ''`. -/
def resolved_content (r : SearchResult) : String :=
  (pyOr r.content (pyOr r.extract (pyOr r.description r.snippet))).getD ""

/-- `'\n\n'.join(f"Title: {s['title']}\nSummary: {s['summary']}" ...)`,
shared by product extraction, gap analysis and the synthesis prompt. -/
def summaries_text (ss : List Summary) : String :=
  String.intercalate "\n\n"
    (ss.map fun s => "Title: " ++ pyStr s.title ++ "\nSummary: " ++ s.summary)

/-- The per-result summarization prompt of `summarize_serp_results`. -/
def summarize_prompt (title url : Option String) (content : String) : String :=
  "\n        Summarize the following blog content for competitive analysis. Identify the main topics, structure, and any unique value or product recommendations. Keep the summary concise (5-7 bullet points):\n\nTitle: "
    ++ pyStr title ++ "\nURL: " ++ pyStr url ++ "\nContent:\n" ++ content ++ "\n"

/-- The prompt of `extract_products_from_summaries`. -/
def extract_prompt (ss : List Summary) : String :=
  "\n    Extract a list of Amazon products (with product names and URLs if available) mentioned in the following competitor blog summaries. Return as a JSON array of objects with \x27name\x27 and \x27url\x27 fields. If no URL is available, leave it blank. Only include real Amazon products, not generic mentions.\n\n    ---\n    "
    ++ summaries_text ss ++ "\n    ---\n    "

/-- The prompt of `analyze_content_gaps`. -/
def gaps_prompt (ss : List Summary) : String :=
  "\n    You are an expert SEO strategist. Given the following competitor blog summaries, list the most important topics, subtopics, or questions that are NOT adequately covered by most competitors. These are the content gaps that, if addressed, would help a new blog post stand out and provide more value to readers.\n\n---\n"
    ++ summaries_text ss
    ++ "\n---\n\nList the content gaps as bullet points. Be specific and actionable.\n"

/-- Tenacity's retry loop with `stop_after_attempt`: run the wrapped function
on successive attempt indices; a raised exception (`Except.error`) triggers a
retry until the attempts are used up, after which tenacity raises
`RetryError`.  The randomized exponential wait between attempts only affects
timing, never the computed value, so it does not appear. -/
def tenacityRetry {α : Type} (f : Nat → Except PyErr α) : Nat → Nat → Except PyErr α
  | _, 0 => .error .retryError
  | i, fuel + 1 =>
    match f i with
    | .ok a => .ok a
    | .error _ => tenacityRetry f (i + 1) fuel

/-- The decorated `generate_text_with_exception_handling` for one prompt/key
pair: tenacity with `stop_after_attempt(6)` wrapping a body whose blanket
`except` turns every raised exception into the return value `None`.
`calls i` is the outcome of the underlying Gemini interaction
(`configure`/`GenerativeModel`/`start_chat`/`send_message`/`.last.text`) on
attempt `i` (0-based): `.ok` its text, `.error` a raised exception. -/
def generate_text_with_exception_handling
    (calls : Nat → Except PyErr String) : Except PyErr (Option String) :=
  tenacityRetry
    (fun i => .ok (match calls i with
      | .ok t => some t
      | .error _ => none))
    0 6

/-- The value a caller receives from one decorated call, where `g` is the
underlying per-prompt/key Gemini interaction.  By
`generate_text_never_raises` (below) the `.error` branch is unreachable. -/
def gteh_val (g : String → String → Except PyErr String)
    (prompt key : String) : Option String :=
  match generate_text_with_exception_handling (fun _ => g prompt key) with
  | .ok r => r
  | .error _ => none

/-- Placeholder used when a result has no populated content field. -/
def no_content_placeholder (title url : Option String) : String :=
  "(No content available to summarize. Title: " ++ pyStr title ++ ", URL: "
    ++ pyStr url ++ ")"

/-- Placeholder used when generation returned `None` or an empty string. -/
def failed_placeholder (title url : Option String) : String :=
  "(Failed to summarize. Title: " ++ pyStr title ++ ", URL: " ++ pyStr url ++ ")"

/-- The loop body of `summarize_serp_results` for one result: the produced
summary, paired with the prompts this result sent to the generation client. -/
def summarize_one (g : String → String → Except PyErr String) (key : String)
    (r : SearchResult) : Summary × List String :=
  let content := resolved_content r
  if content = "" then
    ({ title := r.title, url := r.url,
       summary := no_content_placeholder r.title r.url }, [])
  else
    let prompt := summarize_prompt r.title r.url content
    let s := gteh_val g prompt key
    ({ title := r.title, url := r.url,
       summary :=
         match s with
         | some t => if t = "" then failed_placeholder r.title r.url else py_strip t
         | none => failed_placeholder r.title r.url }, [prompt])

def summarize_go (g : String → String → Except PyErr String) (key : String) :
    List SearchResult → List Summary × List String
  | [] => ([], [])
  | r :: rs =>
    let (s, cs) := summarize_one g key r
    let (ss, cs') := summarize_go g key rs
    (s :: ss, cs ++ cs')

/-- `summarize_serp_results(serp_results, gemini_api_key, max_to_summarize)`:
iterate over `serp_results[:max_to_summarize]` appending one summary each. -/
def summarize_serp_results (serp_results : List SearchResult)
    (gemini_api_key : String) (max_to_summarize : Nat)
    (g : String → String → Except PyErr String) : List Summary × List String :=
  summarize_go g gemini_api_key (serp_results.take max_to_summarize)

/-- Python `'name' in p` for a parsed JSON value `p`: key membership for a
dict, substring test for a string, element membership for a list, and a
raised `TypeError` for every other value. -/
def py_in_name : Json → Except PyErr Bool
  | .obj kvs => .ok (kvs.any (fun kv => kv.1 == "name"))
  | .str s => .ok (py_contains "name" s)
  | .arr xs => .ok (xs.any (fun x => x == .str "name"))
  | _ => .error (.exn "TypeError: argument is not iterable")

/-- The list comprehension `[p for p in products if 'name' in p]`, evaluated
left to right; the first element on which the membership test raises aborts
the whole comprehension with that exception. -/
def filter_products : List Json → Except PyErr (List Json)
  | [] => .ok []
  | p :: ps =>
    match py_in_name p with
    | .error e => .error e
    | .ok b =>
      match filter_products ps with
      | .error e => .error e
      | .ok rest => .ok (if b then p :: rest else rest)

/-- `extract_products_from_summaries(summaries, gemini_api_key)`: guard on
empty summaries or missing key; one model call; strip; direct JSON parse,
then regex-extracted array substring on failure; keep a parsed list's
entries that have a `name`; every failure path degrades to `[]` (the
outermost `except` also catches a `TypeError` raised by the filter). -/
def extract_products_from_summaries (summaries : List Summary)
    (gemini_api_key : String) (g : String → String → Except PyErr String) :
    List Json × List String :=
  if summaries.isEmpty || gemini_api_key == "" then ([], [])
  else
    let prompt := extract_prompt summaries
    match g prompt gemini_api_key with
    | .error _ => ([], [prompt])
    | .ok text =>
      let raw := py_strip text
      let parsed : Option Json :=
        match json_loads raw with
        | some v => some v
        | none =>
          match reSearchArray raw with
          | some sub => json_loads sub
          | none => none
      match parsed with
      | none => ([], [prompt])
      | some (.arr ps) =>
        (match filter_products ps with
          | .ok kept => kept
          | .error _ => [], [prompt])
      | some _ => ([], [prompt])

/-- `analyze_content_gaps(summaries, gemini_api_key)`: guard on empty
summaries or missing key; one model call whose failure degrades to `""`. -/
def analyze_content_gaps (summaries : List Summary) (gemini_api_key : String)
    (g : String → String → Except PyErr String) : String × List String :=
  if summaries.isEmpty || gemini_api_key == "" then ("", [])
  else
    let prompt := gaps_prompt summaries
    match g prompt gemini_api_key with
    | .ok t => (py_strip t, [prompt])
    | .error _ => ("", [prompt])

/-- The selected-products block of the synthesis prompt:
`'\n'.join(f"- {p['name']} ({p.get('url','')})" ...) if selected_products
else "(No products selected)"`. -/
def products_text (selected_products : List Product) : String :=
  if selected_products.isEmpty then "(No products selected)"
  else
    String.intercalate "\n"
      (selected_products.map fun p => "- " ++ p.name ++ " (" ++ p.url ++ ")")

/-- The content-gap block of the synthesis prompt:
`f"\n\n### Content Gaps to Address:\n{content_gaps}" if content_gaps else ""`. -/
def content_gaps_text (content_gaps : String) : String :=
  if content_gaps = "" then ""
  else "\n\n### Content Gaps to Address:\n" ++ content_gaps

/-- The synthesis f-string of `generate_blog_post`, up to (and including) the
newline right before the `{products_text}` slot. -/
def synthesis_head (input_type input_language input_tone : String) : String :=
  "\n        You are an experienced SEO strategist and creative content writer who specializes in crafting "
  ++ input_type
  ++ " blog posts in "
  ++ input_language
  ++ ". Your blog posts are designed to rank highly in search results while deeply engaging readers with a professional yet personable tone.\n\n        ### Task:\n        Write a comprehensive, engaging, and SEO-optimized blog post on the topic below. The blog should:\n        - Be structured for readability with clear headings, subheadings, and bullet points.\n        - Include actionable insights, real-world examples, and personal anecdotes to make the content relatable and practical.\n        - Be written in a "
  ++ input_tone
  ++ " tone that balances professionalism with a conversational style.\n\n        ### Requirements:\n        1. **SEO Optimization**:\n           - Use the provided keywords naturally and strategically throughout the content.\n           - Incorporate semantic keywords and related terms to enhance search engine visibility.\n           - Align the content with Google\x27s E-E-A-T (Experience, Expertise, Authoritativeness, Trustworthiness) guidelines.\n\n        2. **Content Structure**:\n           - Start with a compelling introduction that hooks the reader and outlines the blog\x27s value.\n           - Organize the content with logical headings and subheadings.\n           - Use bullet points, numbered lists, and short paragraphs for readability.\n\n        3. **Engagement and Value**:\n           - Provide actionable tips, real-world examples, and personal anecdotes.\n           - Include at least one engaging call-to-action (CTA) to encourage reader interaction.\n\n        4. **FAQs Section**:\n           - Include 5 FAQs derived from “People also ask” queries and related search suggestions.\n           - Provide thoughtful, well-researched answers to each question.\n\n        5. **Visual and Multimedia Suggestions**:\n           - Recommend where to include images, infographics, or videos to enhance the content\x27s appeal.\n\n        6. **SEO Metadata**:\n           - Append the following metadata after the main blog content:\n             - A **Blog Title** that is catchy and includes the primary keyword.\n             - A **Meta Description** summarizing the blog post in under 160 characters.\n             - A **URL Slug** that is short, descriptive, and formatted in lowercase with hyphens.\n             - A list of **Hashtags** relevant to the content.\n\n        7. **Featured Amazon Products**:\n           - Include and review the following Amazon products in the blog, with honest pros/cons and why they are recommended.\n"

/-- The synthesis f-string from the newline right after the
`{content_gaps_text}` slot to its end. -/
def synthesis_tail (input_blog_keywords summariesText : String) : String :=
  "\n        ### Blog Details:\n        - **Title**: "
  ++ input_blog_keywords
  ++ "\n        - **Keywords**: "
  ++ input_blog_keywords
  ++ "\n        - **SERP Competitor Summaries**:\n        "
  ++ summariesText
  ++ "\n\n        Now, craft an exceptional blog post that stands out in search results and delivers maximum value to readers.\n        "

/-- The full synthesis prompt of `generate_blog_post`, with the rendered
summaries, selected-products and content-gap blocks in their slots. -/
def synthesis_prompt (input_type input_tone input_language input_blog_keywords
    summariesText productsText contentGapsText : String) : String :=
  synthesis_head input_type input_language input_tone
    ++ productsText ++ "\n" ++ contentGapsText
    ++ synthesis_tail input_blog_keywords summariesText

/-- `metaphor_search_articles(query, api_key, num_results)`: raises
`ValueError` when the key is missing (before any network call); otherwise the
transport call either returns the result list or its exception is caught and
Python `None` is returned.  `searchCall` is the outcome of
`metaphor.search_and_contents(...)`. -/
def metaphor_search_articles (query api_key : String) (num_results : Nat)
    (searchCall : Except PyErr (List SearchResult)) :
    Except PyErr (Option (List SearchResult)) :=
  let _ := query
  let _ := num_results
  if api_key == "" then .error (.exn "Metaphor API Key is missing!")
  else
    match searchCall with
    | .ok results => .ok (some results)
    | .error _ => .ok none

/-- `generate_blog_post(...)` (the definition in scope when `main()` runs):
search, summarize, extract products, let the user select some
(the interactive Streamlit checkbox/slider stage is the `select` parameter),
analyze gaps, compose the synthesis prompt, and make the final generation
call.  Returns the article (or Python `None`) together with every prompt sent
to the generation client, in order.  A falsy `serp_results` (`None` after a
caught failure, or an empty list) skips the whole body and returns `None`. -/
def generate_blog_post (input_blog_keywords input_type input_tone
    input_language metaphor_api_key gemini_api_key : String)
    (num_serp_results : Nat) (searchCall : Except PyErr (List SearchResult))
    (g : String → String → Except PyErr String)
    (select : List Json → List Product) : Option String × List String :=
  let serp_results : Option (List SearchResult) :=
    match metaphor_search_articles input_blog_keywords metaphor_api_key
        num_serp_results searchCall with
    | .ok r => r
    | .error _ => none
  match serp_results with
  | none => (none, [])
  | some results =>
    if results.isEmpty then (none, [])
    else
      let (summaries, calls1) :=
        summarize_serp_results results gemini_api_key
          (min 5 num_serp_results) g
      let (products, calls2) :=
        extract_products_from_summaries summaries gemini_api_key g
      let selected_products := select products
      let (content_gaps, calls3) :=
        analyze_content_gaps summaries gemini_api_key g
      let prompt :=
        synthesis_prompt input_type input_tone input_language
          input_blog_keywords (summaries_text summaries)
          (products_text selected_products) (content_gaps_text content_gaps)
      (gteh_val g prompt gemini_api_key, calls1 ++ calls2 ++ calls3 ++ [prompt])

/-! Concrete inputs used to evaluate the embedding in the theorems below. -/

/-- A sample summary record. -/
def demoSummary : Summary :=
  { title := some "Top boots", url := some "http://a", summary := "bullets" }

/-- A generation client that always answers with a fixed text. -/
def demoGen : String → String → Except PyErr String :=
  fun _ _ => .ok "Generated summary"

/-- An underlying-call schedule that raises on attempts 0–4 and succeeds on
attempt 5 — the "fails 5 times and then succeeds" scenario of the retry
policy. -/
def c1_calls : Nat → Except PyErr String :=
  fun i => if i < 5 then .error (.exn "transient failure") else .ok "generated article"

/-- Two results that both carry content. -/
def c3_results : List SearchResult :=
  [{ title := some "A", content := some "content a" },
   { title := some "B", content := some "content b" }]

/-- A result none of whose content fields is populated (`snippet` is present
but empty, hence falsy). -/
def c4_result : SearchResult := { title := some "T", url := none, snippet := some "" }

/-- A result with content, used to drive the summarizer into its generation
branch. -/
def c7_result : SearchResult :=
  { title := some "Boots", url := some "http://b", content := some "blog text" }

/-- A one-product selection. -/
def c9_products : List Product := [{ name := "Trail Widget", url := "http://w" }]

/-! Theorems. -/

/-- The body of the decorated function never raises (its blanket `except`
returns `None` instead), so the decorated call always returns normally, and
already after its first attempt. -/
theorem generate_text_never_raises (calls : Nat → Except PyErr String) :
    generate_text_with_exception_handling calls
      = .ok (match calls 0 with
        | .ok t => some t
        | .error _ => none) := rfl

/-- The summaries produced by the loop are the per-result summaries, in input
order. -/
theorem summarize_go_fst (g : String → String → Except PyErr String)
    (key : String) (l : List SearchResult) :
    (summarize_go g key l).1 = l.map (fun r => (summarize_one g key r).1) := by
  induction l with
  | nil => rfl
  | cons r rs ih =>
    show (summarize_one g key r).1 :: (summarize_go g key rs).1 = _
    rw [ih, List.map_cons]

/-- C1 (code bug): the text generation operation is claimed to retry its
underlying model call on any exception, up to 6 attempts, returning the
attempt-6 success when the first 5 attempts fail.  In the code the blanket
`except` inside the decorated function turns the very first exception into a
normal `None` return, so tenacity (which retries only on a raised exception)
never retries: with a schedule that fails on attempts 0–4 and succeeds on
attempt 5, the operation returns the absence sentinel, not the successful
result the claim predicts. -/
theorem c1_generate_text_no_retry :
    generate_text_with_exception_handling c1_calls = .ok none ∧
    c1_calls 0 = .error (.exn "transient failure") ∧
    c1_calls 5 = .ok "generated article" ∧
    (Except.ok (none : Option String) : Except PyErr (Option String))
      ≠ .ok (some "generated article") := by
  refine ⟨rfl, rfl, rfl, fun h => ?_⟩
  exact Option.noConfusion (Except.ok.inj h)

/-- C3: `summarize_serp_results` returns exactly `min limit (length results)`
summaries, and the `i`-th output summary is the one computed from the `i`-th
input result. -/
theorem c3_summarize_count_order (results : List SearchResult) (key : String)
    (limit : Nat) (g : String → String → Except PyErr String) (i : Nat)
    (h : i < (summarize_serp_results results key limit g).1.length)
    (h' : i < results.length) :
    (summarize_serp_results results key limit g).1.length
        = min limit results.length ∧
    (summarize_serp_results results key limit g).1[i]
        = (summarize_one g key results[i]).1 := by
  constructor
  · rw [summarize_serp_results, summarize_go_fst, List.length_map,
      List.length_take]
  · simp only [summarize_serp_results, summarize_go_fst, List.getElem_map,
      List.getElem_take]

/-- C3 witness at a concrete input: two results, limit 1. -/
theorem c3_summarize_count_order_witness :
    (summarize_serp_results c3_results "gk" 1 demoGen).1.length
        = min 1 c3_results.length ∧
    (summarize_serp_results c3_results "gk" 1 demoGen).1.get ⟨0, by decide⟩
        = (summarize_one demoGen "gk" (c3_results.get ⟨0, by decide⟩)).1 :=
  c3_summarize_count_order c3_results "gk" 1 demoGen 0 (by decide) (by decide)

/-- C4: a result none of whose candidate content fields is populated gets the
placeholder summary referencing its title and url, and sends no prompt at all
to the generation client. -/
theorem c4_no_content_no_call (g : String → String → Except PyErr String)
    (key : String) (r : SearchResult) (h : resolved_content r = "") :
    summarize_one g key r
      = ({ title := r.title, url := r.url,
           summary := no_content_placeholder r.title r.url }, []) := by
  simp [summarize_one, h]

/-- C4 witness at a concrete input. -/
theorem c4_no_content_no_call_witness :
    resolved_content c4_result = "" ∧
    summarize_one demoGen "gk" c4_result
      = ({ title := some "T", url := none,
           summary := "(No content available to summarize. Title: T, URL: None)" },
         []) :=
  ⟨rfl, c4_no_content_no_call demoGen "gk" c4_result rfl⟩

/-- C2 counterexample: with both API keys present and a search call that
raises, the pipeline does NOT continue with an empty result list — it
returns no article and records no generation call whatsoever (`if
serp_results:` skips the whole body), whereas the claim predicts a synthesis
call whose mocked result `some "mock article"` is returned. -/
theorem c2_search_failure_aborts_cex :
    generate_blog_post "best hiking boots" "General" "General" "English"
        "mk" "gk" 10 (.error (.exn "transport failure"))
        (fun _ _ => .ok "mock article") (fun _ => []) = (none, []) ∧
    (none : Option String) ≠ some "mock article" :=
  ⟨rfl, fun h => Option.noConfusion h⟩

/-- C2 (amended): when the search call fails — raises, or yields no results —
the pipeline returns absence and never reaches summarization, product
extraction, gap analysis or synthesis: no prompt is sent to the generation
client at all. -/
theorem c2_search_failure_returns_none (kw ty tone lang mkey gkey : String)
    (n : Nat) (e : PyErr) (searchCall : Except PyErr (List SearchResult))
    (g : String → String → Except PyErr String)
    (select : List Json → List Product)
    (h : searchCall = .error e ∨ searchCall = .ok []) :
    generate_blog_post kw ty tone lang mkey gkey n searchCall g select
      = (none, []) := by
  rcases h with rfl | rfl <;> by_cases hk : mkey == "" <;>
    simp [generate_blog_post, metaphor_search_articles, hk]

/-- C2 witness at a concrete input: the search call raises. -/
theorem c2_search_failure_returns_none_witness :
    ((Except.error (PyErr.exn "transport failure") :
        Except PyErr (List SearchResult)) = .error (PyErr.exn "transport failure") ∨
      (Except.error (PyErr.exn "transport failure") :
        Except PyErr (List SearchResult)) = .ok []) ∧
    generate_blog_post "kw" "General" "General" "English" "mk" "gk" 10
        (.error (.exn "transport failure")) demoGen (fun _ => [])
      = (none, []) :=
  ⟨Or.inl rfl,
   c2_search_failure_returns_none "kw" "General" "General" "English" "mk" "gk"
     10 (.exn "transport failure") _ demoGen (fun _ => []) (Or.inl rfl)⟩

/-- C5: the product-extraction parsing policy on three canonical responses:
a valid JSON array with a named product is returned as that single entry; a
valid JSON array whose entry has no `name` yields the empty list; unparsable
garbage with no bracket-delimited array substring yields the empty list (and
the embedding is a total function — no exception reaches the caller). -/
theorem c5_extract_parse_policy :
    (extract_products_from_summaries [demoSummary] "gk"
        (fun _ _ => .ok "[\x7b\"name\":\"X\",\"url\":\"Y\"\x7d]")).1
      = [Json.obj [("name", Json.str "X"), ("url", Json.str "Y")]] ∧
    (extract_products_from_summaries [demoSummary] "gk"
        (fun _ _ => .ok "[\x7b\"url\":\"Y\"\x7d]")).1 = [] ∧
    (extract_products_from_summaries [demoSummary] "gk"
        (fun _ _ => .ok "I could not find any products in these summaries.")).1
      = [] :=
  ⟨rfl, rfl, rfl⟩

/-- A string with a non-empty left part is non-empty. -/
theorem str_append_ne_empty_left (a b : String) (h : a ≠ "") : a ++ b ≠ "" := by
  intro he
  apply h
  apply String.ext
  have hd : a.data ++ b.data = [] := by
    have hc := congrArg String.data he
    rwa [String.data_append] at hc
  exact (List.append_eq_nil.mp hd).1

theorem no_content_placeholder_ne_empty (t u : Option String) :
    no_content_placeholder t u ≠ "" := by
  rw [no_content_placeholder]
  apply str_append_ne_empty_left
  apply str_append_ne_empty_left
  apply str_append_ne_empty_left
  apply str_append_ne_empty_left
  decide

theorem failed_placeholder_ne_empty (t u : Option String) :
    failed_placeholder t u ≠ "" := by
  rw [failed_placeholder]
  apply str_append_ne_empty_left
  apply str_append_ne_empty_left
  apply str_append_ne_empty_left
  apply str_append_ne_empty_left
  decide

/-- On a list of JSON objects the comprehension never raises and keeps
exactly the entries having a `name` key, unchanged. -/
theorem filter_products_objs (kvss : List (List (String × Json))) :
    filter_products (kvss.map Json.obj)
      = .ok ((kvss.filter (fun kvs => kvs.any (fun kv => kv.1 == "name"))).map
          Json.obj) := by
  induction kvss with
  | nil => rfl
  | cons kvs rest ih =>
    rw [List.map_cons, filter_products, py_in_name, ih, List.filter_cons]
    by_cases h : kvs.any (fun kv => kv.1 == "name") <;> simp [h]

/-- C6 counterexample: an entry whose `name` field is the empty string is
KEPT by the code (the filter is `'name' in p`, a key-presence test), while
the claim says it is dropped. -/
theorem c6_empty_name_kept_cex :
    (extract_products_from_summaries [demoSummary] "gk"
        (fun _ _ => .ok "[\x7b\"name\":\"\"\x7d]")).1
      = [Json.obj [("name", Json.str "")]] ∧
    ([Json.obj [("name", Json.str "")]] : List Json) ≠ [] :=
  ⟨rfl, fun h => List.noConfusion h⟩

/-- C6 (amended): for every parsed product array consisting of objects,
the extraction keeps exactly those entries that HAVE a `name` key — an entry
missing the key is silently dropped, and an entry with the key is kept as-is
regardless of its other fields and even when its `name` value is empty. -/
theorem c6_extract_keeps_name_keyed (sm : List Summary) (key raw : String)
    (g : String → String → Except PyErr String)
    (kvss : List (List (String × Json)))
    (h1 : sm ≠ []) (h2 : key ≠ "")
    (h3 : g (extract_prompt sm) key = .ok raw)
    (h4 : json_loads (py_strip raw) = some (Json.arr (kvss.map Json.obj))) :
    (extract_products_from_summaries sm key g).1
      = (kvss.filter (fun kvs => kvs.any (fun kv => kv.1 == "name"))).map
          Json.obj := by
  have hempty : sm.isEmpty = false := by
    cases sm with
    | nil => exact absurd rfl h1
    | cons a l => rfl
  have hkey : (key == "") = false := beq_eq_false_iff_ne.mpr h2
  rw [extract_products_from_summaries]
  simp only [hempty, hkey, Bool.or_self, Bool.false_eq_true, if_false, h3,
    h4, filter_products_objs]

/-- C6 witness at a concrete input: one entry with an empty `name`, one entry
with no `name`. -/
theorem c6_extract_keeps_name_keyed_witness :
    (([demoSummary] : List Summary) ≠ []) ∧
    (("gk" : String) ≠ "") ∧
    ((fun _ _ => (Except.ok "[\x7b\"name\":\"\"\x7d,\x7b\"url\":\"Y\"\x7d]" :
          Except PyErr String)) (extract_prompt [demoSummary]) "gk"
      = .ok "[\x7b\"name\":\"\"\x7d,\x7b\"url\":\"Y\"\x7d]") ∧
    (json_loads (py_strip "[\x7b\"name\":\"\"\x7d,\x7b\"url\":\"Y\"\x7d]")
      = some (Json.arr
          ([[("name", Json.str "")], [("url", Json.str "Y")]].map Json.obj))) ∧
    (extract_products_from_summaries [demoSummary] "gk"
        (fun _ _ => .ok "[\x7b\"name\":\"\"\x7d,\x7b\"url\":\"Y\"\x7d]")).1
      = (([[("name", Json.str "")], [("url", Json.str "Y")]].filter
            (fun kvs => kvs.any (fun kv => kv.1 == "name"))).map Json.obj) :=
  ⟨fun h => List.noConfusion h, by decide, rfl, rfl,
   c6_extract_keeps_name_keyed [demoSummary] "gk" _ _
     [[("name", Json.str "")], [("url", Json.str "Y")]]
     (fun h => List.noConfusion h) (by decide) rfl rfl⟩

/-- C7 counterexample: the generation client returns `" "` — a truthy
(non-empty) string — so the code takes the `summary.strip()` branch and the
produced summary IS the empty string, not a placeholder. -/
theorem c7_whitespace_empty_summary_cex :
    (summarize_serp_results [c7_result] "gk" 5 (fun _ _ => .ok " ")).1
      = [{ title := some "Boots", url := some "http://b", summary := "" }] := rfl

/-- C7 (amended): every produced summary is non-empty — via the placeholder
referencing title and url when the result had no content or generation
returned `None`/`""` — provided every non-empty text the generation client
returns is still non-empty after stripping; a whitespace-only client output
is the one exception (its stripped form becomes the summary verbatim). -/
theorem c7_summary_nonempty (g : String → String → Except PyErr String)
    (key : String) (results : List SearchResult) (limit : Nat)
    (hg : ∀ p k t, g p k = .ok t → t ≠ "" → py_strip t ≠ "") :
    ∀ s ∈ (summarize_serp_results results key limit g).1, s.summary ≠ "" := by
  intro s hs
  rw [summarize_serp_results, summarize_go_fst] at hs
  obtain ⟨r, hr, rfl⟩ := List.mem_map.mp hs
  by_cases hc : resolved_content r = ""
  · simp only [summarize_one, hc, if_pos]
    exact no_content_placeholder_ne_empty r.title r.url
  · simp only [summarize_one, hc, if_neg, if_false]
    have hval : gteh_val g (summarize_prompt r.title r.url (resolved_content r)) key
        = (match g (summarize_prompt r.title r.url (resolved_content r)) key with
           | .ok t => some t
           | .error _ => none) := rfl
    cases hgk : g (summarize_prompt r.title r.url (resolved_content r)) key with
    | ok t =>
      simp only [hval, hgk]
      by_cases ht : t = ""
      · simp only [ht, if_pos]
        exact failed_placeholder_ne_empty r.title r.url
      · simp only [ht, if_neg, if_false]
        exact hg _ _ _ hgk ht
    | error e =>
      simp only [hval, hgk]
      exact failed_placeholder_ne_empty r.title r.url

/-- C7 witness at a concrete input: a client that answers with real text. -/
theorem c7_summary_nonempty_witness :
    (∀ (p k t : String), demoGen p k = .ok t → t ≠ "" → py_strip t ≠ "") ∧
    ∀ s ∈ (summarize_serp_results [c7_result] "gk" 5 demoGen).1,
      s.summary ≠ "" :=
  ⟨fun _ _ t h _ => by cases h; decide,
   c7_summary_nonempty demoGen "gk" [c7_result] 5
     (fun _ _ t h _ => by cases h; decide)⟩

/-- C8: content-gap analysis returns empty text when the summaries list is
empty (making no generation call: the log is empty too), when the API key is
missing, and when the single generation call raises; the embedding is a
total function — no exception reaches the caller. -/
theorem c8_analyze_gaps_fallbacks (ss : List Summary) (key : String)
    (g gBad : String → String → Except PyErr String) (e : PyErr)
    (hfail : gBad (gaps_prompt ss) key = .error e) :
    analyze_content_gaps [] key g = ("", []) ∧
    analyze_content_gaps ss "" g = ("", []) ∧
    (analyze_content_gaps ss key gBad).1 = "" := by
  refine ⟨rfl, by simp [analyze_content_gaps], ?_⟩
  by_cases hss : ss.isEmpty <;> by_cases hk : (key == "") <;>
    simp [analyze_content_gaps, hss, hk, hfail]

/-- C8 witness at a concrete input. -/
theorem c8_analyze_gaps_fallbacks_witness :
    ((fun _ _ => (Except.error (PyErr.exn "500") : Except PyErr String))
        (gaps_prompt [demoSummary]) "gk" = .error (PyErr.exn "500")) ∧
    (analyze_content_gaps [] "gk" demoGen = ("", []) ∧
     analyze_content_gaps [demoSummary] "" demoGen = ("", []) ∧
     (analyze_content_gaps [demoSummary] "gk"
        (fun _ _ => .error (.exn "500"))).1 = "") :=
  ⟨rfl, c8_analyze_gaps_fallbacks [demoSummary] "gk" demoGen _ (PyErr.exn "500") rfl⟩

/-- C9: in the synthesis prompt, each selected product is rendered as the
line `- name (url)` (newline-joined); the block is the literal
`(No products selected)` when the selection is empty; the content-gap block
renders as its header plus the gap text and contributes nothing to the
prompt exactly when the gap text is empty — with a non-empty gap text the
prompt genuinely differs. -/
theorem c9_synthesis_prompt_blocks (ps : List Product) (gt : String)
    (ty tone lang kw st pt : String) (hps : ps ≠ []) (hgt : gt ≠ "") :
    products_text ps = String.intercalate "\n"
        (ps.map fun p => "- " ++ p.name ++ " (" ++ p.url ++ ")") ∧
    products_text [] = "(No products selected)" ∧
    content_gaps_text gt = "\n\n### Content Gaps to Address:\n" ++ gt ∧
    content_gaps_text "" = "" ∧
    synthesis_prompt ty tone lang kw st pt (content_gaps_text "")
      = synthesis_prompt ty tone lang kw st pt "" ∧
    synthesis_prompt ty tone lang kw st pt (content_gaps_text gt)
      ≠ synthesis_prompt ty tone lang kw st pt "" := by
  have hps' : ps.isEmpty = false := by
    cases ps with
    | nil => exact absurd rfl hps
    | cons a l => rfl
  refine ⟨by simp [products_text, hps'], rfl, by simp [content_gaps_text, hgt],
    rfl, rfl, ?_⟩
  intro heq
  have h0 : (content_gaps_text gt).length = 0 := by
    have hlen := congrArg String.length heq
    simp only [synthesis_prompt, String.length_append] at hlen
    have hz : ("" : String).length = 0 := rfl
    omega
  have hcg : content_gaps_text gt = "" := by
    apply String.ext
    exact List.length_eq_zero.mp h0
  rw [content_gaps_text, if_neg hgt] at hcg
  exact str_append_ne_empty_left _ _ (by decide) hcg

/-- C9 witness at a concrete input. -/
theorem c9_synthesis_prompt_blocks_witness :
    (c9_products ≠ []) ∧
    (("- cover pricing" : String) ≠ "") ∧
    (products_text c9_products = String.intercalate "\n"
        (c9_products.map fun p => "- " ++ p.name ++ " (" ++ p.url ++ ")") ∧
     products_text [] = "(No products selected)" ∧
     content_gaps_text "- cover pricing"
        = "\n\n### Content Gaps to Address:\n" ++ "- cover pricing" ∧
     content_gaps_text "" = "" ∧
     synthesis_prompt "How-to Guides" "Casual" "English" "boots" "S" "P"
        (content_gaps_text "")
       = synthesis_prompt "How-to Guides" "Casual" "English" "boots" "S" "P" "" ∧
     synthesis_prompt "How-to Guides" "Casual" "English" "boots" "S" "P"
        (content_gaps_text "- cover pricing")
       ≠ synthesis_prompt "How-to Guides" "Casual" "English" "boots" "S" "P" "") :=
  ⟨fun h => List.noConfusion h, by decide,
   c9_synthesis_prompt_blocks c9_products "- cover pricing"
     "How-to Guides" "Casual" "English" "boots" "S" "P"
     (fun h => List.noConfusion h) (by decide)⟩

/-- C10: when the model response parses (directly) to a JSON value that is
not a list, the extraction returns the empty list — the filtered list is
produced only for a parsed array. -/
theorem c10_nonlist_parse_empty (sm : List Summary) (key raw : String)
    (g : String → String → Except PyErr String) (v : Json)
    (h1 : sm ≠ []) (h2 : key ≠ "") (h3 : g (extract_prompt sm) key = .ok raw)
    (h4 : json_loads (py_strip raw) = some v) (h5 : v.isArr = false) :
    (extract_products_from_summaries sm key g).1 = [] := by
  have hempty : sm.isEmpty = false := by
    cases sm with
    | nil => exact absurd rfl h1
    | cons a l => rfl
  have hkey : (key == "") = false := beq_eq_false_iff_ne.mpr h2
  rw [extract_products_from_summaries]
  simp only [hempty, hkey, Bool.or_self, Bool.false_eq_true, if_false, h3, h4]
  cases v with
  | arr xs => simp [Json.isArr] at h5
  | null => rfl
  | bool b => rfl
  | num n => rfl
  | str s => rfl
  | obj kvs => rfl

/-- C10 witness at a concrete input: the response is a single JSON object. -/
theorem c10_nonlist_parse_empty_witness :
    (([demoSummary] : List Summary) ≠ []) ∧
    (("gk" : String) ≠ "") ∧
    ((fun _ _ => (Except.ok "\x7b\"name\":\"X\"\x7d" : Except PyErr String))
        (extract_prompt [demoSummary]) "gk" = .ok "\x7b\"name\":\"X\"\x7d") ∧
    (json_loads (py_strip "\x7b\"name\":\"X\"\x7d")
      = some (Json.obj [("name", Json.str "X")])) ∧
    ((Json.obj [("name", Json.str "X")]).isArr = false) ∧
    (extract_products_from_summaries [demoSummary] "gk"
        (fun _ _ => .ok "\x7b\"name\":\"X\"\x7d")).1 = [] :=
  ⟨fun h => List.noConfusion h, by decide, rfl, rfl, rfl,
   c10_nonlist_parse_empty [demoSummary] "gk" _ _ (Json.obj [("name", Json.str "X")])
     (fun h => List.noConfusion h) (by decide) rfl rfl rfl⟩

end AffiliateBlog
